import Mathlib

/-!
Verification of the okta2aws credential-exchange pipeline.

The source is a single Python file (src/okta2aws.py) with four stage
functions and one orchestrator:

  * `getOktaUrl`          (lines 194-200) : scheme://host extraction via
    `urllib.parse.urlparse`;
  * `oktaAuth`            (lines 37-52)   : POST to Okta, read
    `response.json()['sessionToken']`;
  * `oktaGetSamlResponse` (lines 86-101)  : GET the redirect page, find the
    `SAMLResponse` input element with BeautifulSoup, percent-decode its value;
  * `awsAssumeRole`       (lines 141-165) : base64-decode the assertion,
    xmltodict navigation to the ARN pair, GET against STS, xmltodict
    navigation to the credentials;
  * `assume`              (lines 252-264) : the sequential composition.

The embedding models Python exceptions as an error type (`PyError`), Python
values produced by `json`/`xmltodict` as `PyVal`, and the network as an
oracle (`Net`) mapping request data to responses.  All definitions are
executable; concrete theorems evaluate them.
-/

set_option maxRecDepth 100000

namespace Okta2Aws

/-- Python exception kinds that the pipeline's code can raise.  Each
constructor corresponds to a concrete Python exception class:
`KeyError` (string or integer key), `TypeError`, `IndexError`,
`AttributeError`, `ValueError`, `json.JSONDecodeError`,
`xml.parsers.expat.ExpatError`, `binascii.Error`, and
`requests.exceptions.ConnectionError` (transport failure). -/
inductive PyError where
  | keyError (k : String)
  | keyErrorNat (k : Nat)
  | typeError (msg : String)
  | indexError (msg : String)
  | attributeError (msg : String)
  | valueError (msg : String)
  | jsonDecodeError
  | expatError
  | binasciiError (msg : String)
  | connectionError (msg : String)
deriving DecidableEq, Repr

/-- An HTTP response as the `requests` library presents it to this code:
the code only ever reads the body (via `.json()` or `._content.decode()`);
the status code is carried to show that the source never inspects it. -/
structure HttpResponse where
  status : Nat
  body : String
deriving DecidableEq, Repr

/-- The network world backing `requests.post` / `requests.get`: a map from
request data to either a transport error or a response.  `post` receives
the URL, the header list and the request body; `get` receives the URL. -/
structure Net where
  post : String → List (String × String) → String → Except PyError HttpResponse
  get : String → Except PyError HttpResponse

/-! ## The `urllib.parse.urlparse` model (scheme and netloc components)

`getOktaUrl` only reads `.scheme` and `.netloc` of the parse result, so the
model computes exactly those two components, following CPython's
`urllib/parse.py` `urlsplit`:

  1. strip leading C0-control/space characters, then remove every
     tab/CR/LF (the WHATWG sanitisation present in CPython since 2021);
  2. if the first `:` is at position `i > 0`, the first character is an
     ASCII letter, and every character before the `:` is a scheme
     character, the scheme is that prefix lower-cased and the rest follows
     the `:`;
  3. if the rest starts with `//`, the netloc is everything up to the next
     `/`, `?` or `#`; a netloc containing `[` without `]` (or vice versa)
     raises `ValueError("Invalid IPv6 URL")`;
  4. `_checknetloc` returns immediately for an ASCII netloc; its non-ASCII
     NFKC-normalisation branch is not modelled (theorems about arbitrary
     inputs therefore carry an all-ASCII hypothesis). -/

/-- Characters CPython's `scheme_chars` allows in a URL scheme. -/
def schemeChar (c : Char) : Bool :=
  c.isAlpha || c.isDigit || c == '+' || c == '-' || c == '.'

/-- The WHATWG URL sanitisation CPython applies before splitting: left-strip
C0 controls and space, then delete every tab, CR and LF. -/
def wsStrip (url : List Char) : List Char :=
  (url.dropWhile fun c => c.toNat ≤ 32).filter fun c =>
    !(c == '\t' || c == '\r' || c == '\n')

/-- CPython's scheme split: `(scheme.lower(), remainder)` when the prefix
before the first `:` is a well-formed scheme, `("", url)` otherwise. -/
def splitScheme (url : List Char) : List Char × List Char :=
  match url.findIdx? (fun c => c == ':') with
  | some i =>
    if i != 0 && (url.headD ' ').isAlpha && (url.take i).all schemeChar then
      ((url.take i).map Char.toLower, url.drop (i + 1))
    else ([], url)
  | none => ([], url)

/-- The scheme/netloc part of CPython's `urlsplit`: returns the pair
`(scheme, netloc)` or the `ValueError` raised for a bracket-mismatched
(IPv6-looking) netloc. -/
def urlsplitSN (url : List Char) : Except PyError (List Char × List Char) :=
  let u := wsStrip url
  let p := splitScheme u
  if p.2.take 2 == ['/', '/'] then
    let netloc := (p.2.drop 2).takeWhile fun c => !(c == '/' || c == '?' || c == '#')
    if (netloc.contains '[' && !(netloc.contains ']')) ||
        (netloc.contains ']' && !(netloc.contains '[')) then
      .error (.valueError "Invalid IPv6 URL")
    else
      .ok (p.1, netloc)
  else
    .ok (p.1, [])

/-- Embedding of `getOktaUrl` (src/okta2aws.py lines 194-200):
`urlparse(fullUrl)` followed by `urlTuple.scheme + "://" + urlTuple.netloc`. -/
def getOktaUrl (fullUrl : String) : Except PyError String :=
  match urlsplitSN fullUrl.data with
  | .error e => .error e
  | .ok sn => .ok (String.mk sn.1 ++ "://" ++ String.mk sn.2)

/-- Equality of `Except` results is decidable componentwise; used to settle
concrete evaluations by `decide`. -/
instance {ε α : Type} [DecidableEq ε] [DecidableEq α] : DecidableEq (Except ε α) :=
  fun a b =>
    match a, b with
    | .ok x, .ok y =>
      if h : x = y then .isTrue (by rw [h]) else .isFalse (by intro hc; cases hc; exact h rfl)
    | .error x, .error y =>
      if h : x = y then .isTrue (by rw [h]) else .isFalse (by intro hc; cases hc; exact h rfl)
    | .ok _, .error _ => .isFalse (by intro hc; cases hc)
    | .error _, .ok _ => .isFalse (by intro hc; cases hc)

/-! ## Python values

`json.loads` and `xmltodict.parse` both hand the source dynamically typed
Python data: strings, numbers, booleans, `None`, lists and (insertion
ordered) dicts.  `PyVal` is that value space.  Numeric literals are kept as
their lexemes because the source never computes with a number. -/

/-- A dynamically typed Python value as produced by `json.loads` /
`xmltodict.parse`. -/
inductive PyVal where
  | pstr (s : String)
  | pnum (lexeme : String)
  | pbool (b : Bool)
  | pnone
  | plist (xs : List PyVal)
  | pdict (kvs : List (String × PyVal))
deriving Repr

/-- Fuel-bounded Boolean equality of Python values.  The nested list in
`pdict` prevents the automatic `DecidableEq` derivation, and a
well-founded mutual definition would not reduce inside the kernel, so the
recursion is driven by explicit fuel; `beqF_sound` and `beqF_refl` recover
propositional equality. -/
def beqF : Nat → PyVal → PyVal → Bool
  | 0, _, _ => false
  | _ + 1, .pstr x, .pstr y => x == y
  | _ + 1, .pnum x, .pnum y => x == y
  | _ + 1, .pbool x, .pbool y => x == y
  | _ + 1, .pnone, .pnone => true
  | _ + 1, .plist [], .plist [] => true
  | fuel + 1, .plist (x :: xs), .plist (y :: ys) =>
    beqF fuel x y && beqF fuel (.plist xs) (.plist ys)
  | _ + 1, .pdict [], .pdict [] => true
  | fuel + 1, .pdict ((k1, v1) :: xs), .pdict ((k2, v2) :: ys) =>
    k1 == k2 && beqF fuel v1 v2 && beqF fuel (.pdict xs) (.pdict ys)
  | _ + 1, _, _ => false

/-- Decidable equality of Python values through the fuelled comparison:
`beqF` only ever identifies equal values (soundness, by induction on the
fuel) and is reflexive once the fuel reaches the value's size.  The fuel
is the (kernel-reducible) automatic `sizeOf`, whose instance has no
compiled code for a nested inductive, hence `noncomputable`; `decide`
works through kernel reduction regardless. -/
noncomputable instance : DecidableEq PyVal := fun a b =>
  have hsound : ∀ n a b, beqF n a b = true → a = b := by
    intro n
    induction n with
    | zero => intro a b h; simp [beqF] at h
    | succ n ih =>
      intro a b h
      cases a with
      | pstr x => cases b <;> simp [beqF] at h ; rw [h]
      | pnum x => cases b <;> simp [beqF] at h ; rw [h]
      | pbool x => cases b <;> simp [beqF] at h ; rw [h]
      | pnone => cases b <;> simp [beqF] at h ; rfl
      | plist l =>
        cases b with
        | plist m =>
          cases l with
          | nil => cases m with
            | nil => rfl
            | cons y ys => simp [beqF] at h
          | cons x xs =>
            cases m with
            | nil => simp [beqF] at h
            | cons y ys =>
              simp only [beqF, Bool.and_eq_true] at h
              have h1 := ih x y h.1
              have h2 := ih (.plist xs) (.plist ys) h.2
              injection h2 with h3
              rw [h1, h3]
        | pstr _ => simp [beqF] at h
        | pnum _ => simp [beqF] at h
        | pbool _ => simp [beqF] at h
        | pnone => simp [beqF] at h
        | pdict _ => simp [beqF] at h
      | pdict l =>
        cases b with
        | pdict m =>
          cases l with
          | nil => cases m with
            | nil => rfl
            | cons y ys => simp [beqF] at h
          | cons x xs =>
            cases m with
            | nil => simp [beqF] at h
            | cons y ys =>
              cases x with
              | mk k1 v1 =>
                cases y with
                | mk k2 v2 =>
                  simp only [beqF, Bool.and_eq_true, beq_iff_eq] at h
                  have h1 := ih v1 v2 h.1.2
                  have h2 := ih (.pdict xs) (.pdict ys) h.2
                  injection h2 with h3
                  rw [h.1.1, h1, h3]
        | pstr _ => simp [beqF] at h
        | pnum _ => simp [beqF] at h
        | pbool _ => simp [beqF] at h
        | pnone => simp [beqF] at h
        | plist _ => simp [beqF] at h
  have hrefl : ∀ n a, sizeOf a ≤ n → beqF n a a = true := by
    intro n
    induction n with
    | zero =>
      intro a h
      exact absurd h (by cases a <;> simp)
    | succ n ih =>
      intro a h
      cases a with
      | pstr x => simp [beqF]
      | pnum x => simp [beqF]
      | pbool x => simp [beqF]
      | pnone => simp [beqF]
      | plist l =>
        cases l with
        | nil => simp [beqF]
        | cons x xs =>
          simp only [PyVal.plist.sizeOf_spec, List.cons.sizeOf_spec] at h
          simp only [beqF, Bool.and_eq_true]
          constructor
          · exact ih x (by omega)
          · exact ih (.plist xs) (by simp only [PyVal.plist.sizeOf_spec]; omega)
      | pdict l =>
        cases l with
        | nil => simp [beqF]
        | cons x xs =>
          cases x with
          | mk k v =>
            simp only [PyVal.pdict.sizeOf_spec, List.cons.sizeOf_spec,
              Prod.mk.sizeOf_spec] at h
            simp only [beqF, Bool.and_eq_true, beq_self_eq_true, true_and]
            constructor
            · exact ih v (by omega)
            · exact ih (.pdict xs) (by simp only [PyVal.pdict.sizeOf_spec]; omega)
  decidable_of_iff (beqF (sizeOf a + sizeOf b) a b = true)
    ⟨hsound _ a b, fun h => by rw [h]; exact hrefl _ b (by omega)⟩

/-- Python dict insertion with overwrite semantics: replacing an existing
key keeps its original position, a new key is appended. -/
def dinsert (kvs : List (String × PyVal)) (k : String) (v : PyVal) :
    List (String × PyVal) :=
  match kvs with
  | [] => [(k, v)]
  | (k0, v0) :: rest => if k0 == k then (k0, v) :: rest else (k0, v0) :: dinsert rest k v

/-- Python subscripting `v[k]` with a string key: dict lookup raising
`KeyError` for a missing key, `TypeError` for every non-dict value (lists
and strings demand integer indices; numbers, booleans and `None` are not
subscriptable). -/
def pyGetS (v : PyVal) (k : String) : Except PyError PyVal :=
  match v with
  | .pdict kvs =>
    match List.lookup k kvs with
    | some x => .ok x
    | none => .error (.keyError k)
  | .plist _ => .error (.typeError "list indices must be integers or slices, not str")
  | .pstr _ => .error (.typeError "string indices must be integers")
  | .pnone => .error (.typeError "'NoneType' object is not subscriptable")
  | .pbool _ => .error (.typeError "'bool' object is not subscriptable")
  | .pnum _ => .error (.typeError "'int' object is not subscriptable")

/-- Python subscripting `v[n]` with a non-negative integer: list indexing
raising `IndexError` out of range, dict lookup raising `KeyError n` (every
key this code builds is a string), string indexing yielding a one-character
string, `TypeError` otherwise. -/
def pyGetN (v : PyVal) (n : Nat) : Except PyError PyVal :=
  match v with
  | .plist xs =>
    match xs.get? n with
    | some x => .ok x
    | none => .error (.indexError "list index out of range")
  | .pdict _ => .error (.keyErrorNat n)
  | .pstr s =>
    match s.data.get? n with
    | some c => .ok (.pstr (String.mk [c]))
    | none => .error (.indexError "string index out of range")
  | .pnone => .error (.typeError "'NoneType' object is not subscriptable")
  | .pbool _ => .error (.typeError "'bool' object is not subscriptable")
  | .pnum _ => .error (.typeError "'int' object is not subscriptable")

/-! ## The `json` module model

`json.dumps` is applied by the source to one flat dict of two strings, so
the renderer takes the key/value pairs directly.  `json.loads` (reached
through `response.json()`) is a full recursive-descent parser over the
response body; malformed bodies become `jsonDecodeError`. -/

/-- Lowercase hexadecimal digit. -/
def hexDigitL (n : Nat) : Char :=
  if n < 10 then Char.ofNat (48 + n) else Char.ofNat (87 + n)

/-- Four-digit lowercase hex rendering, as in Python's `\uXXXX` escapes. -/
def u4hex (n : Nat) : List Char :=
  [hexDigitL (n / 4096 % 16), hexDigitL (n / 256 % 16), hexDigitL (n / 16 % 16),
    hexDigitL (n % 16)]

/-- The escaping `json.dumps` applies to one character with the default
`ensure_ascii=True`: printable ASCII other than quote and backslash is kept,
the short escapes cover the usual controls, everything else becomes
`\uXXXX` (a surrogate pair beyond the BMP). -/
def jsonEscapeChar (c : Char) : List Char :=
  if c == '"' then ['\\', '"']
  else if c == '\\' then ['\\', '\\']
  else if c == '\n' then ['\\', 'n']
  else if c == '\t' then ['\\', 't']
  else if c == '\r' then ['\\', 'r']
  else if c.toNat == 8 then ['\\', 'b']
  else if c.toNat == 12 then ['\\', 'f']
  else if 32 ≤ c.toNat && c.toNat ≤ 126 then [c]
  else if c.toNat < 65536 then '\\' :: 'u' :: u4hex c.toNat
  else
    ('\\' :: 'u' :: u4hex (55296 + (c.toNat - 65536) / 1024)) ++
      ('\\' :: 'u' :: u4hex (56320 + (c.toNat - 65536) % 1024))

/-- A JSON string literal for `s`. -/
def jsonQuote (s : String) : String :=
  "\"" ++ String.mk (s.data.flatMap jsonEscapeChar) ++ "\""

/-- Embedding of `json.dumps` on a flat dict of strings, with Python's
default separators `", "` and `": "` and insertion order preserved. -/
def jsonDumpsPairs (kvs : List (String × String)) : String :=
  "\x7b" ++ String.intercalate ", "
      (kvs.map fun kv => jsonQuote kv.1 ++ ": " ++ jsonQuote kv.2) ++ "\x7d"

/-- JSON insignificant whitespace (space, tab, newline, carriage return). -/
def skipWsJ (s : List Char) : List Char :=
  s.dropWhile fun c => c == ' ' || c == '\t' || c == '\n' || c == '\r'

/-- Value of one hexadecimal digit. -/
def hexVal? (c : Char) : Option Nat :=
  if '0' ≤ c ∧ c ≤ '9' then some (c.toNat - 48)
  else if 'a' ≤ c ∧ c ≤ 'f' then some (c.toNat - 87)
  else if 'A' ≤ c ∧ c ≤ 'F' then some (c.toNat - 55)
  else none

/-- JSON string-literal body parser (opening quote already consumed),
following Python's strict decoder: short escapes and `\uXXXX` are decoded,
an unescaped control character or a bad escape is an error.  A lone
surrogate `\uXXXX` unit (which Python keeps as a surrogate code point) is
not representable as a scalar `Char` and decodes to NUL here; no claim
exercises surrogates. -/
def parseJStr (acc : List Char) : List Char → Option (String × List Char)
  | [] => none
  | '"' :: rest => some (String.mk acc.reverse, rest)
  | '\\' :: e :: rest =>
    if e == '"' then parseJStr ('"' :: acc) rest
    else if e == '\\' then parseJStr ('\\' :: acc) rest
    else if e == '/' then parseJStr ('/' :: acc) rest
    else if e == 'n' then parseJStr ('\n' :: acc) rest
    else if e == 't' then parseJStr ('\t' :: acc) rest
    else if e == 'r' then parseJStr ('\r' :: acc) rest
    else if e == 'b' then parseJStr (Char.ofNat 8 :: acc) rest
    else if e == 'f' then parseJStr (Char.ofNat 12 :: acc) rest
    else if e == 'u' then
      match rest with
      | h1 :: h2 :: h3 :: h4 :: rest2 =>
        match hexVal? h1, hexVal? h2, hexVal? h3, hexVal? h4 with
        | some a, some b, some c, some d =>
          parseJStr (Char.ofNat (4096 * a + 256 * b + 16 * c + d) :: acc) rest2
        | _, _, _, _ => none
      | _ => none
    else none
  | c :: rest => if c.toNat < 32 then none else parseJStr (c :: acc) rest

/-- Optional fraction part of a JSON number (consumed only when a digit
follows the dot, as Python's number regex behaves). -/
def parseJFrac (s : List Char) : List Char × List Char :=
  match s with
  | '.' :: rest =>
    let ds := rest.takeWhile Char.isDigit
    if ds.isEmpty then ([], s) else ('.' :: ds, rest.dropWhile Char.isDigit)
  | _ => ([], s)

/-- Optional exponent part of a JSON number (consumed only when digits
follow, as Python's number regex behaves). -/
def parseJExp (s : List Char) : List Char × List Char :=
  match s with
  | e :: rest =>
    if e == 'e' || e == 'E' then
      let p := match rest with
        | '+' :: r => (['+'], r)
        | '-' :: r => (['-'], r)
        | _ => (([] : List Char), rest)
      let ds := p.2.takeWhile Char.isDigit
      if ds.isEmpty then ([], s) else (e :: p.1 ++ ds, p.2.dropWhile Char.isDigit)
    else ([], s)
  | [] => ([], [])

/-- JSON number lexer: optional minus, `0` or a nonzero-led digit run, then
optional fraction and exponent; yields the lexeme. -/
def parseJNum (s : List Char) : Option (List Char × List Char) :=
  let p := match s with
    | '-' :: r => ((['-'] : List Char), r)
    | _ => (([] : List Char), s)
  match p.2 with
  | '0' :: r =>
    let f := parseJFrac r
    let e := parseJExp f.2
    some (p.1 ++ '0' :: f.1 ++ e.1, e.2)
  | c :: r =>
    if c.isDigit then
      let ds := r.takeWhile Char.isDigit
      let f := parseJFrac (r.dropWhile Char.isDigit)
      let e := parseJExp f.2
      some (p.1 ++ c :: ds ++ f.1 ++ e.1, e.2)
    else none
  | [] => none

mutual

/-- Fueled recursive-descent JSON value parser, mirroring Python's
`json.loads` grammar; objects keep insertion order with later duplicate
keys overwriting earlier ones, as Python dicts do. -/
def parseJVal : Nat → List Char → Option (PyVal × List Char)
  | 0, _ => none
  | fuel + 1, s =>
    match s with
    | '"' :: rest =>
      match parseJStr [] rest with
      | some (str, r) => some (.pstr str, r)
      | none => none
    | 't' :: 'r' :: 'u' :: 'e' :: r => some (.pbool true, r)
    | 'f' :: 'a' :: 'l' :: 's' :: 'e' :: r => some (.pbool false, r)
    | 'n' :: 'u' :: 'l' :: 'l' :: r => some (.pnone, r)
    | c :: rest =>
      if c == Char.ofNat 123 then
        let r1 := skipWsJ rest
        match r1 with
        | d :: r2 =>
          if d == Char.ofNat 125 then some (.pdict [], r2)
          else parseJMembers fuel [] r1
        | [] => none
      else if c == '[' then
        let r1 := skipWsJ rest
        match r1 with
        | d :: r2 =>
          if d == ']' then some (.plist [], r2)
          else parseJItems fuel [] r1
        | [] => none
      else
        match parseJNum (c :: rest) with
        | some q => some (.pnum (String.mk q.1), q.2)
        | none => none
    | [] => none

/-- Object-member loop of the JSON parser (positioned at a key string). -/
def parseJMembers : Nat → List (String × PyVal) → List Char →
    Option (PyVal × List Char)
  | 0, _, _ => none
  | fuel + 1, acc, s =>
    match s with
    | '"' :: rest =>
      match parseJStr [] rest with
      | some (k, r1) =>
        match skipWsJ r1 with
        | ':' :: r3 =>
          match parseJVal fuel (skipWsJ r3) with
          | some (v, r4) =>
            let acc2 := dinsert acc k v
            match skipWsJ r4 with
            | ',' :: r6 => parseJMembers fuel acc2 (skipWsJ r6)
            | d :: r6 => if d == Char.ofNat 125 then some (.pdict acc2, r6) else none
            | [] => none
          | none => none
        | _ => none
      | none => none
    | _ => none

/-- Array-item loop of the JSON parser (positioned at a value). -/
def parseJItems : Nat → List PyVal → List Char → Option (PyVal × List Char)
  | 0, _, _ => none
  | fuel + 1, acc, s =>
    match parseJVal fuel s with
    | some (v, r1) =>
      match skipWsJ r1 with
      | ',' :: r3 => parseJItems fuel (v :: acc) (skipWsJ r3)
      | ']' :: r3 => some (.plist (v :: acc).reverse, r3)
      | _ => none
    | none => none

end

/-- Embedding of `response.json()`: parse the body as JSON, raising
`json.JSONDecodeError` when it is not a single JSON document. -/
def pyJsonLoads (s : String) : Except PyError PyVal :=
  let t := skipWsJ s.data
  match parseJVal (2 * t.length + 4) t with
  | some p => if (skipWsJ p.2).isEmpty then .ok p.1 else .error .jsonDecodeError
  | none => .error .jsonDecodeError

/-- Embedding of `oktaAuth` (src/okta2aws.py lines 37-52): POST the JSON
credentials to `{oktaUrl}/api/v1/authn` and return
`response.json()['sessionToken']`.  The HTTP status code is never
inspected. -/
def oktaAuth (net : Net) (username password oktaUrl : String) :
    Except PyError PyVal :=
  let oktaAuthUrl := oktaUrl ++ "/api/v1/authn"
  let headerDict := [("Content-Type", "application/json; charset=utf-8")]
  let oktaCreds := jsonDumpsPairs [("username", username), ("password", password)]
  match net.post oktaAuthUrl headerDict oktaCreds with
  | .error e => .error e
  | .ok response =>
    match pyJsonLoads response.body with
    | .error e => .error e
    | .ok j => pyGetS j "sessionToken"

/-! ## Percent decoding and the SAML retrieval stage

`urllib.parse.unquote` decodes `%XX` escapes and leaves malformed escapes
untouched.  Python reassembles consecutive escaped bytes and UTF-8-decodes
them; this model maps each escaped byte to the character of its value,
which agrees with Python exactly when every escape is an ASCII byte
(`asciiEscapes`) — theorems over arbitrary values carry that hypothesis. -/

/-- Character-level `urllib.parse.unquote`: `%` followed by two hex digits
becomes the character of that byte value; an invalid escape keeps the `%`
literally and continues. -/
def unquoteL : List Char → List Char
  | [] => []
  | '%' :: h1 :: h2 :: rest =>
    match hexVal? h1, hexVal? h2 with
    | some a, some b => Char.ofNat (16 * a + b) :: unquoteL rest
    | _, _ => '%' :: unquoteL (h1 :: h2 :: rest)
  | c :: rest => c :: unquoteL rest

/-- Embedding of `urllib.parse.unquote` on strings. -/
def unquote (s : String) : String :=
  String.mk (unquoteL s.data)

/-- Every percent-escape decodes to an ASCII byte, the region where the
character-level `unquote` agrees with Python's UTF-8 reassembly. -/
def asciiEscapes : List Char → Bool
  | [] => true
  | '%' :: h1 :: h2 :: rest =>
    match hexVal? h1, hexVal? h2 with
    | some a, some _ => a < 8 && asciiEscapes rest
    | _, _ => asciiEscapes (h1 :: h2 :: rest)
  | _ :: rest => asciiEscapes rest

/-! ## The BeautifulSoup `find("input", {"name": "SAMLResponse"})` model

A linear scan over the document for start tags, the way
`html.parser` tokenises them: after `<` an ASCII letter opens a start tag
whose name and attribute names are lower-cased; attribute values are
quoted (single or double) or unquoted runs; a valueless attribute maps to
`None`; duplicated attributes keep the first position with the last value,
as BeautifulSoup's default duplicate handling does.  Anything after `<`
that is not a letter (end tags, comments, declarations) is skipped up to
the next `>`.  Rawtext elements (`script`/`style`) and character-reference
substitution are not modelled; no claim exercises them.  Malformed input
never raises — a document without a matching tag simply yields no match,
exactly as `find` returns `None`. -/

/-- HTML whitespace inside a tag. -/
def wsChar (c : Char) : Bool :=
  c == ' ' || c == '\t' || c == '\n' || c == '\r' || c == Char.ofNat 12

/-- Characters that continue a tag name. -/
def tagNameChar (c : Char) : Bool :=
  !(wsChar c || c == '/' || c == '>')

/-- Characters that continue an attribute name. -/
def attrNameChar (c : Char) : Bool :=
  !(wsChar c || c == '/' || c == '>' || c == '=')

/-- Attribute-list insertion: first position kept, last value wins. -/
def ainsert (kvs : List (String × Option String)) (k : String) (v : Option String) :
    List (String × Option String) :=
  match kvs with
  | [] => [(k, v)]
  | (k0, v0) :: rest => if k0 == k then (k0, v) :: rest else (k0, v0) :: ainsert rest k v

/-- Lower-cased string of a character list (tag and attribute names). -/
def lcStr (l : List Char) : String :=
  String.mk (l.map Char.toLower)

/-- Attribute parser for one start tag: returns the attributes and the
text following the closing `>`, or `none` when the document ends inside
the tag (html.parser then emits no tag at all). -/
def parseAttrs : Nat → List (String × Option String) → List Char →
    Option (List (String × Option String) × List Char)
  | 0, _, _ => none
  | fuel + 1, acc, s =>
    let s1 := s.dropWhile fun c => wsChar c || c == '/'
    match s1 with
    | [] => none
    | '>' :: rest => some (acc, rest)
    | _ =>
      let nm := s1.takeWhile attrNameChar
      let r1 := s1.dropWhile attrNameChar
      if nm.isEmpty then
        match r1 with
        | _ :: r2 => parseAttrs fuel acc r2
        | [] => none
      else
        let r2 := r1.dropWhile wsChar
        match r2 with
        | '=' :: r3 =>
          let r4 := r3.dropWhile wsChar
          match r4 with
          | q :: r5 =>
            if q == '"' || q == Char.ofNat 39 then
              let v := r5.takeWhile fun c => !(c == q)
              let r6 := (r5.dropWhile fun c => !(c == q)).drop 1
              parseAttrs fuel (ainsert acc (lcStr nm) (some (String.mk v))) r6
            else
              let v := r4.takeWhile fun c => !(wsChar c || c == '>')
              let r6 := r4.dropWhile fun c => !(wsChar c || c == '>')
              parseAttrs fuel (ainsert acc (lcStr nm) (some (String.mk v))) r6
          | [] => none
        | _ => parseAttrs fuel (ainsert acc (lcStr nm) none) r2

/-- Embedding of `bs.find("input", {"name": "SAMLResponse"})`: the first
start tag named `input` whose `name` attribute equals `"SAMLResponse"`,
returned as its attribute list, or `none` when no such element exists. -/
def findSamlInput : Nat → List Char → Option (List (String × Option String))
  | 0, _ => none
  | fuel + 1, s =>
    match s.dropWhile fun c => !(c == '<') with
    | '<' :: rest =>
      match rest with
      | c :: _ =>
        if c.isAlpha then
          let tag := lcStr (rest.takeWhile tagNameChar)
          let r1 := rest.dropWhile tagNameChar
          match parseAttrs (r1.length + 1) [] r1 with
          | some p =>
            if tag == "input" && List.lookup "name" p.1 == some (some "SAMLResponse") then
              some p.1
            else findSamlInput fuel p.2
          | none => none
        else
          findSamlInput fuel ((rest.dropWhile fun c => !(c == '>')).drop 1)
      | [] => none
    | _ => none

/-- Embedding of `oktaGetSamlResponse` (src/okta2aws.py lines 86-101):
GET the session-cookie redirect page, find the `SAMLResponse` input
element, subscript its `value` attribute, percent-decode it.  A missing
element means `None['value']`, a `TypeError`; a matching element without a
`value` attribute raises `KeyError`; the session token is concatenated
into the URL, so a non-string token raises `TypeError` before any request. -/
def oktaGetSamlResponse (net : Net) (oktaUrl : String) (sessionToken : PyVal)
    (oktaForwardUrl : String) : Except PyError String :=
  let samlUrl := oktaUrl ++ "/login/sessionCookieRedirect?checkAccountSetupComplete=true&token="
  match sessionToken with
  | .pstr tok =>
    match net.get (samlUrl ++ tok ++ "&redirectUrl=" ++ oktaForwardUrl) with
    | .error e => .error e
    | .ok samlAuth =>
      match findSamlInput (samlAuth.body.length + 1) samlAuth.body.data with
      | none => .error (.typeError "'NoneType' object is not subscriptable")
      | some attrs =>
        match List.lookup "value" attrs with
        | none => .error (.keyError "value")
        | some none => .error (.typeError "argument of type 'NoneType' is not iterable")
        | some (some v) => .ok (unquote v)
  | _ => .error (.typeError "can only concatenate str to str")

/-! ## Base64, percent-encoding, and comma splitting -/

/-- Value of a standard base64 alphabet character. -/
def b64Char? (c : Char) : Option Nat :=
  if 'A' ≤ c ∧ c ≤ 'Z' then some (c.toNat - 65)
  else if 'a' ≤ c ∧ c ≤ 'z' then some (c.toNat - 71)
  else if '0' ≤ c ∧ c ≤ '9' then some (c.toNat + 4)
  else if c = '+' then some 62
  else if c = '/' then some 63
  else none

/-- Quad-wise base64 decoding to byte values; padding is accepted only in
the final quad (data after padding, which lenient `binascii` tolerates, is
not modelled — no claim exercises it); a leftover partial quad is
`binascii.Error` as in Python. -/
def b64Quads : List Char → Except PyError (List Nat)
  | [] => .ok []
  | c1 :: c2 :: c3 :: c4 :: rest =>
    match b64Char? c1, b64Char? c2 with
    | some a, some b =>
      if c3 == '=' && c4 == '=' && rest.isEmpty then
        .ok [(a * 64 + b) / 16]
      else
        match b64Char? c3 with
        | some c =>
          if c4 == '=' && rest.isEmpty then
            .ok [(a * 4096 + b * 64 + c) / 4 / 256, (a * 4096 + b * 64 + c) / 4 % 256]
          else
            match b64Char? c4 with
            | some d =>
              match b64Quads rest with
              | .ok bs =>
                let n := a * 262144 + b * 4096 + c * 64 + d
                .ok (n / 65536 :: n / 256 % 256 :: n % 256 :: bs)
              | .error e => .error e
            | none => .error (.binasciiError "Incorrect padding")
        | none => .error (.binasciiError "Incorrect padding")
    | _, _ => .error (.binasciiError "Incorrect padding")
  | _ => .error (.binasciiError "Incorrect padding")

/-- Embedding of `base64.b64decode` with its default `validate=False`:
a non-ASCII argument raises `ValueError`, characters outside the alphabet
are discarded, then quads are decoded.  The decoded bytes are carried as a
string of their code points; they agree with the UTF-8 decoding the XML
layer would apply exactly when the payload is ASCII, which every claim's
payload is. -/
def b64decode (s : String) : Except PyError String :=
  if s.data.all (fun c => c.toNat < 128) then
    match b64Quads (s.data.filter fun c => (b64Char? c).isSome || c == '=') with
    | .ok bytes => .ok (String.mk (bytes.map Char.ofNat))
    | .error e => .error e
  else .error (.valueError "string argument should contain only ASCII characters")

/-- Uppercase hexadecimal digit, as `urllib.parse.quote` renders escapes. -/
def hexDigitU (n : Nat) : Char :=
  if n < 10 then Char.ofNat (48 + n) else Char.ofNat (55 + n)

/-- Characters `urllib.parse.quote_plus` never encodes. -/
def quoteSafeChar (c : Char) : Bool :=
  c.isAlpha || c.isDigit || c == '_' || c == '.' || c == '-' || c == '~'

/-- UTF-8 encoding of one character, as byte values. -/
def utf8Bytes (c : Char) : List Nat :=
  let n := c.toNat
  if n < 128 then [n]
  else if n < 2048 then [192 + n / 64, 128 + n % 64]
  else if n < 65536 then [224 + n / 4096, 128 + n / 64 % 64, 128 + n % 64]
  else [240 + n / 262144, 128 + n / 4096 % 64, 128 + n / 64 % 64, 128 + n % 64]

/-- Embedding of `urllib.parse.quote_plus`: safe characters kept, space as
`+`, every other character's UTF-8 bytes as uppercase `%XX`. -/
def quotePlus (s : String) : String :=
  String.mk (s.data.flatMap fun c =>
    if quoteSafeChar c then [c]
    else if c == ' ' then ['+']
    else (utf8Bytes c).flatMap fun b => ['%', hexDigitU (b / 16), hexDigitU (b % 16)])

/-- Python's `str.split(",")` on the character level: splits at every
comma, keeping empty segments; the result is never empty. -/
def splitCommaL : List Char → List (List Char)
  | [] => [[]]
  | ',' :: rest => [] :: splitCommaL rest
  | c :: rest =>
    match splitCommaL rest with
    | h :: t => (c :: h) :: t
    | [] => [[c]]

/-- Embedding of `arnStr.split(",")`. -/
def splitComma (s : String) : List String :=
  (splitCommaL s.data).map String.mk

/-! ## The `xmltodict.parse` model

A strict well-formed-XML parser (expat raises `ExpatError` on anything
malformed) followed by xmltodict's dictionary construction: attributes
become `@name` keys, child elements become keys grouped into lists when a
tag repeats, joined-and-stripped text becomes the value itself for a
childless attributeless element, a `#text` key otherwise, and an entirely
empty element becomes `None`.  Character references, comments, CDATA and
processing instructions inside the document are not modelled; no claim
exercises them. -/

/-- Characters accepted in an element or attribute name. -/
def xmlNameChar (c : Char) : Bool :=
  c.isAlpha || c.isDigit || c == ':' || c == '-' || c == '_' || c == '.'

/-- XML attribute parser: `name="value"` or `name='value'` pairs up to the
closing `>` or `/>`; anything else is malformed. -/
def parseXAttrs : Nat → List (String × String) → List Char →
    Option (List (String × String) × List Char)
  | 0, _, _ => none
  | fuel + 1, acc, s =>
    let s1 := s.dropWhile wsChar
    match s1 with
    | [] => none
    | c :: _ =>
      if c == '>' || c == '/' then some (acc.reverse, s1)
      else
        let nm := s1.takeWhile xmlNameChar
        let r1 := s1.dropWhile xmlNameChar
        if nm.isEmpty then none
        else
          match r1.dropWhile wsChar with
          | '=' :: r2 =>
            match r2.dropWhile wsChar with
            | q :: r3 =>
              if q == '"' || q == Char.ofNat 39 then
                let v := r3.takeWhile fun x => !(x == q)
                match r3.dropWhile fun x => !(x == q) with
                | _ :: r5 => parseXAttrs fuel ((String.mk nm, String.mk v) :: acc) r5
                | [] => none
              else none
            | [] => none
          | _ => none

/-- xmltodict's child grouping: a repeated tag's values collect into a
list in document order; the key keeps its first position. -/
def pushKV (kvs : List (String × PyVal)) (k : String) (v : PyVal) :
    List (String × PyVal) :=
  match kvs with
  | [] => [(k, v)]
  | (k0, v0) :: rest =>
    if k0 == k then
      match v0 with
      | .plist xs => (k0, .plist (xs ++ [v])) :: rest
      | _ => (k0, .plist [v0, v]) :: rest
    else (k0, v0) :: pushKV rest k v

/-- Python `str.strip()` whitespace. -/
def pyWsChar (c : Char) : Bool :=
  wsChar c || c.toNat == 11

/-- Python `str.strip()`. -/
def pyStrip (s : String) : String :=
  String.mk (((s.data.dropWhile pyWsChar).reverse.dropWhile pyWsChar).reverse)

/-- xmltodict's value for an element, assembled from its attribute items,
its grouped children and its stripped text: `None` when all three are
absent, the text alone when only text is present, otherwise a dict with
the `#text` key added last when stripped text remains. -/
def xmlMkVal (items : List (String × PyVal)) (textAcc : String) : PyVal :=
  let txt := pyStrip textAcc
  if items.isEmpty then
    if txt.isEmpty then .pnone else .pstr txt
  else if txt.isEmpty then .pdict items
  else .pdict (items ++ [("#text", .pstr txt)])

mutual

/-- XML element parser, positioned at `<`; yields the element's tag and
its xmltodict value directly (the recursion is fuelled so that the
definition reduces in the kernel). -/
def parseXElem : Nat → List Char → Option ((String × PyVal) × List Char)
  | 0, _ => none
  | fuel + 1, s =>
    match s with
    | '<' :: rest =>
      let nm := rest.takeWhile xmlNameChar
      if nm.isEmpty then none
      else
        let r1 := rest.dropWhile xmlNameChar
        match parseXAttrs (r1.length + 1) [] r1 with
        | some p =>
          let attrItems := p.1.map fun kv => ("@" ++ kv.1, PyVal.pstr kv.2)
          match p.2 with
          | '/' :: '>' :: r3 => some ((String.mk nm, xmlMkVal attrItems ""), r3)
          | '>' :: r3 => parseXContent fuel attrItems "" (String.mk nm) r3
          | _ => none
        | none => none
    | _ => none

/-- Element-content parser: accumulates grouped child entries and text up
to the matching close tag, which must agree with the open tag, then
assembles the element's xmltodict value. -/
def parseXContent : Nat → List (String × PyVal) → String → String → List Char →
    Option ((String × PyVal) × List Char)
  | 0, _, _, _, _ => none
  | fuel + 1, items, textAcc, nm, s =>
    let t := s.takeWhile fun c => !(c == '<')
    let r1 := s.dropWhile fun c => !(c == '<')
    let textAcc1 := textAcc ++ String.mk t
    match r1 with
    | '<' :: '/' :: r2 =>
      let cn := r2.takeWhile xmlNameChar
      match (r2.dropWhile xmlNameChar).dropWhile wsChar with
      | '>' :: r4 =>
        if String.mk cn == nm then some ((nm, xmlMkVal items textAcc1), r4) else none
      | _ => none
    | '<' :: _ =>
      match parseXElem fuel r1 with
      | some p => parseXContent fuel (pushKV items p.1.1 p.1.2) textAcc1 nm p.2
      | none => none
    | _ => none

end

/-- XML document parser: optional whitespace and `<?...?>` prolog, one root
element, trailing whitespace; yields the root tag and its value. -/
def parseXDoc (s : List Char) : Option (String × PyVal) :=
  let s1 := s.dropWhile wsChar
  let s2 := match s1 with
    | '<' :: '?' :: r => ((r.dropWhile fun c => !(c == '>')).drop 1).dropWhile wsChar
    | _ => s1
  match parseXElem (2 * s2.length + 4) s2 with
  | some p => if (p.2.dropWhile wsChar).isEmpty then some p.1 else none
  | none => none

/-- Embedding of `xmltodict.parse`: parse the document and wrap the root
element's value under its tag name; malformed input raises
`xml.parsers.expat.ExpatError`.  Attributes become `@name` keys placed
first, repeated child tags group into lists in document order, and
joined-and-stripped text becomes the value itself for a childless
attributeless element and a final `#text` key otherwise.  Character
references, comments, CDATA and processing instructions inside the
document are not modelled; no claim exercises them. -/
def xmltodictParse (s : String) : Except PyError PyVal :=
  match parseXDoc s.data with
  | some p => .ok (.pdict [p])
  | none => .error .expatError

/-! ## The AWS role-assumption stage -/

/-- The dictionary navigation of src/okta2aws.py line 147:
`arnDict['saml2p:Response']['saml2:Assertion']['saml2:AttributeStatement']['saml2:Attribute'][0]['saml2:AttributeValue']['#text']`. -/
def arnNav (arnDict : PyVal) : Except PyError PyVal := do
  let v1 ← pyGetS arnDict "saml2p:Response"
  let v2 ← pyGetS v1 "saml2:Assertion"
  let v3 ← pyGetS v2 "saml2:AttributeStatement"
  let v4 ← pyGetS v3 "saml2:Attribute"
  let v5 ← pyGetN v4 0
  let v6 ← pyGetS v5 "saml2:AttributeValue"
  pyGetS v6 "#text"

/-- Python attribute access `arnStr.split`: only strings have `.split`;
any other value raises `AttributeError`. -/
def pyAsStr (v : PyVal) : Except PyError String :=
  match v with
  | .pstr s => .ok s
  | _ => .error (.attributeError "object has no attribute 'split'")

/-- The dictionary navigation of src/okta2aws.py line 165:
`awsDict['AssumeRoleWithSAMLResponse']['AssumeRoleWithSAMLResult']['Credentials']`. -/
def stsNav (awsDict : PyVal) : Except PyError PyVal := do
  let v1 ← pyGetS awsDict "AssumeRoleWithSAMLResponse"
  let v2 ← pyGetS v1 "AssumeRoleWithSAMLResult"
  pyGetS v2 "Credentials"

/-- Python list indexing `xs[n]`. -/
def pyListGet (xs : List String) (n : Nat) : Except PyError String :=
  match xs.get? n with
  | some x => .ok x
  | none => .error (.indexError "list index out of range")

/-- Embedding of `awsAssumeRole` (src/okta2aws.py lines 141-165):
base64-decode the assertion, parse it with xmltodict, navigate to the ARN
text, split it on commas (`[1]` is the role ARN, `[0]` the principal ARN,
evaluated in that order), build the STS query URL with the percent-encoded
original assertion, GET it, parse the XML response and navigate to the
credentials. -/
def awsAssumeRole (net : Net) (samlb64enc : String) : Except PyError PyVal := do
  let decoded ← b64decode samlb64enc
  let arnDict ← xmltodictParse decoded
  let arnStrV ← arnNav arnDict
  let arnStr ← pyAsStr arnStrV
  let roleArn ← pyListGet (splitComma arnStr) 1
  let principalArn ← pyListGet (splitComma arnStr) 0
  let awsReqUrl := "https://sts.amazonaws.com/?Version=2011-06-15&Action=AssumeRoleWithSAML&RoleArn="
      ++ roleArn ++ "&PrincipalArn=" ++ principalArn ++ "&SAMLAssertion="
      ++ quotePlus samlb64enc
  let resp ← net.get awsReqUrl
  let awsDict ← xmltodictParse resp.body
  stsNav awsDict

/-- Embedding of `assume` (src/okta2aws.py lines 252-264): resolve the
origin, authenticate, retrieve the SAML response, assume the role — in
that order, with no exception handling anywhere. -/
def assume (net : Net) (username password oktaForwardUrl : String) :
    Except PyError PyVal := do
  let oktaUrl ← getOktaUrl oktaForwardUrl
  let sessionToken ← oktaAuth net username password oktaUrl
  let samlb64enc ← oktaGetSamlResponse net oktaUrl sessionToken oktaForwardUrl
  awsAssumeRole net samlb64enc

/-! ## Concrete test fixtures

A synthetic SAML document in the shape Okta's AWS integration emits (at
least two `saml2:Attribute` children — the source's `[0]` subscript
requires the list xmltodict only builds for a repeated tag — and an
attribute on the first `saml2:AttributeValue` so that its value is a dict
carrying `#text`), its base64 encoding, a comma-less variant, and a fixed
STS response. -/

/-- Synthetic SAML assertion XML with a two-ARN attribute value. -/
def samlXmlA : String :=
  "<saml2p:Response><saml2:Assertion><saml2:AttributeStatement><saml2:Attribute><saml2:AttributeValue t=\"x\">arn:aws:iam::111111111111:saml-provider/Example,arn:aws:iam::111111111111:role/ExampleRole</saml2:AttributeValue></saml2:Attribute><saml2:Attribute><saml2:AttributeValue>z</saml2:AttributeValue></saml2:Attribute></saml2:AttributeStatement></saml2:Assertion></saml2p:Response>"

/-- Base64 encoding of `samlXmlA`. -/
def samlB64A : String :=
  "PHNhbWwycDpSZXNwb25zZT48c2FtbDI6QXNzZXJ0aW9uPjxzYW1sMjpBdHRyaWJ1dGVTdGF0ZW1lbnQ+PHNhbWwyOkF0dHJpYnV0ZT48c2FtbDI6QXR0cmlidXRlVmFsdWUgdD0ieCI+YXJuOmF3czppYW06OjExMTExMTExMTExMTpzYW1sLXByb3ZpZGVyL0V4YW1wbGUsYXJuOmF3czppYW06OjExMTExMTExMTExMTpyb2xlL0V4YW1wbGVSb2xlPC9zYW1sMjpBdHRyaWJ1dGVWYWx1ZT48L3NhbWwyOkF0dHJpYnV0ZT48c2FtbDI6QXR0cmlidXRlPjxzYW1sMjpBdHRyaWJ1dGVWYWx1ZT56PC9zYW1sMjpBdHRyaWJ1dGVWYWx1ZT48L3NhbWwyOkF0dHJpYnV0ZT48L3NhbWwyOkF0dHJpYnV0ZVN0YXRlbWVudD48L3NhbWwyOkFzc2VydGlvbj48L3NhbWwycDpSZXNwb25zZT4="

/-- Synthetic SAML assertion XML whose attribute value has no comma. -/
def samlXmlNoComma : String :=
  "<saml2p:Response><saml2:Assertion><saml2:AttributeStatement><saml2:Attribute><saml2:AttributeValue t=\"x\">nocomma</saml2:AttributeValue></saml2:Attribute><saml2:Attribute><saml2:AttributeValue>z</saml2:AttributeValue></saml2:Attribute></saml2:AttributeStatement></saml2:Assertion></saml2p:Response>"

/-- Base64 encoding of `samlXmlNoComma`. -/
def samlB64NoComma : String :=
  "PHNhbWwycDpSZXNwb25zZT48c2FtbDI6QXNzZXJ0aW9uPjxzYW1sMjpBdHRyaWJ1dGVTdGF0ZW1lbnQ+PHNhbWwyOkF0dHJpYnV0ZT48c2FtbDI6QXR0cmlidXRlVmFsdWUgdD0ieCI+bm9jb21tYTwvc2FtbDI6QXR0cmlidXRlVmFsdWU+PC9zYW1sMjpBdHRyaWJ1dGU+PHNhbWwyOkF0dHJpYnV0ZT48c2FtbDI6QXR0cmlidXRlVmFsdWU+ejwvc2FtbDI6QXR0cmlidXRlVmFsdWU+PC9zYW1sMjpBdHRyaWJ1dGU+PC9zYW1sMjpBdHRyaWJ1dGVTdGF0ZW1lbnQ+PC9zYW1sMjpBc3NlcnRpb24+PC9zYW1sMnA6UmVzcG9uc2U+"

/-- A fixed STS response document with a `Credentials` node. -/
def stsXmlA : String :=
  "<AssumeRoleWithSAMLResponse><AssumeRoleWithSAMLResult><Credentials><AccessKeyId>AKIAEXAMPLE</AccessKeyId><SecretAccessKey>SECRETKEY</SecretAccessKey><SessionToken>STSTOKEN</SessionToken><Expiration>2021-09-24T00:00:00Z</Expiration></Credentials></AssumeRoleWithSAMLResult></AssumeRoleWithSAMLResponse>"

/-- The credentials dict xmltodict builds from `stsXmlA`. -/
def credsA : PyVal :=
  .pdict [("AccessKeyId", .pstr "AKIAEXAMPLE"), ("SecretAccessKey", .pstr "SECRETKEY"),
    ("SessionToken", .pstr "STSTOKEN"), ("Expiration", .pstr "2021-09-24T00:00:00Z")]

/-- A network whose STS endpoint (every GET) echoes `stsXmlA` and whose
POST endpoint answers with an Okta-style session-token body. -/
def echoNet : Net where
  post _ _ _ := .ok ⟨200, "\x7b\"sessionToken\": \"abc123\"\x7d"⟩
  get _ := .ok ⟨200, stsXmlA⟩

/-- A network whose Okta authentication endpoint fails with a transport
error; the other endpoints answer trivially. -/
def authFailNet : Net where
  post _ _ _ := .error (.connectionError "connection refused")
  get _ := .ok ⟨200, ""⟩

/-- A network returning an HTML page without any `SAMLResponse` input. -/
def noSamlNet : Net where
  post _ _ _ := .ok ⟨200, ""⟩
  get _ := .ok ⟨200, "<html><body><p>Access Denied</p></body></html>"⟩

/-- A network whose authentication endpoint rejects with HTTP 401 yet still
carries a `sessionToken` body — for showing the status code is ignored. -/
def status401Net : Net where
  post _ _ _ := .ok ⟨401, "\x7b\"sessionToken\": \"abc123\"\x7d"⟩
  get _ := .ok ⟨200, ""⟩

/-- The redirect page carrying the specification's example SAML value. -/
def samlHtmlA : String :=
  "<html><body><form><input name=\"SAMLResponse\" value=\"PHNhbWxwOlJlc3BvbnNlPg%3D%3D\"></form></body></html>"

/-- A network returning the redirect page with the percent-encoded SAML
value from the specification's example. -/
def samlPageNet : Net where
  post _ _ _ := .ok ⟨200, ""⟩
  get _ := .ok ⟨200, samlHtmlA⟩

/-- A network returning a malformed, tag-soup response body. -/
def malformedHtmlNet : Net where
  post _ _ _ := .ok ⟨200, ""⟩
  get _ := .ok ⟨200, "<<<p><input name=>>>oops<b"⟩

/-- The dict xmltodict builds from `samlXmlA`. -/
def samlDictA : PyVal :=
  .pdict [("saml2p:Response", .pdict [("saml2:Assertion", .pdict
    [("saml2:AttributeStatement", .pdict [("saml2:Attribute", .plist
      [.pdict [("saml2:AttributeValue", .pdict [("@t", .pstr "x"),
        ("#text", .pstr "arn:aws:iam::111111111111:saml-provider/Example,arn:aws:iam::111111111111:role/ExampleRole")])],
        .pdict [("saml2:AttributeValue", .pstr "z")]])])])])]

/-- The dict xmltodict builds from `samlXmlNoComma`. -/
def samlDictNoComma : PyVal :=
  .pdict [("saml2p:Response", .pdict [("saml2:Assertion", .pdict
    [("saml2:AttributeStatement", .pdict [("saml2:Attribute", .plist
      [.pdict [("saml2:AttributeValue", .pdict [("@t", .pstr "x"),
        ("#text", .pstr "nocomma")])],
        .pdict [("saml2:AttributeValue", .pstr "z")]])])])])]

/-- The dict xmltodict builds from `stsXmlA`. -/
def stsDictA : PyVal :=
  .pdict [("AssumeRoleWithSAMLResponse", .pdict [("AssumeRoleWithSAMLResult",
    .pdict [("Credentials", credsA)])])]

/-! ## Shared lemmas for the URL-resolution proofs -/

/-- Mapping a function that fixes every element of a list is the
identity. -/
theorem mapIdOn (f : Char → Char) :
    ∀ l : List Char, (∀ c ∈ l, f c = c) → l.map f = l := by
  intro l
  induction l with
  | nil => intro _; rfl
  | cons x xs ih => intro h; simp_all

/-- Position of the first `:` when a match-free prefix precedes it. -/
theorem findIdxColon (pred : Char → Bool) (ys : List Char) :
    ∀ (xs : List Char) (i : Nat), (∀ c ∈ xs, pred c = false) → pred ':' = true →
      List.findIdx? pred (xs ++ ':' :: ys) i = some (i + xs.length) := by
  intro xs
  induction xs with
  | nil => intro i h hc; simp [List.findIdx?, hc]
  | cons x t ih =>
    intro i h hc
    have hx : pred x = false := h x (by simp)
    simp only [List.cons_append, List.findIdx?, hx, Bool.false_eq_true, if_false,
      List.append_eq]
    rw [ih (i + 1) (fun c hm => h c (by simp [hm])) hc]
    simp; omega

/-- A predicate false everywhere finds no index. -/
theorem findIdxNone (pred : Char → Bool) :
    ∀ (xs : List Char) (i : Nat), (∀ c ∈ xs, pred c = false) →
      List.findIdx? pred xs i = none := by
  intro xs
  induction xs with
  | nil => intro i _; rfl
  | cons x t ih =>
    intro i h
    have hx : pred x = false := h x (by simp)
    simp only [List.findIdx?, hx, Bool.false_eq_true, if_false]
    exact ih (i + 1) fun c hm => h c (by simp [hm])

/-- The only error `urlsplitSN` ever produces is the IPv6 bracket
`ValueError`. -/
theorem urlsplitSN_error (l : List Char) (e : PyError)
    (h : urlsplitSN l = .error e) : e = .valueError "Invalid IPv6 URL" := by
  simp only [urlsplitSN] at h
  split at h
  · split at h
    · exact (Except.error.inj h).symm
    · cases h
  · cases h

/-- An ASCII letter lies above the C0-control/space range stripped by
`wsStrip`. -/
theorem alpha_gt32 (c : Char) (h : c.isAlpha = true) : 32 < c.toNat := by
  simp only [Char.isAlpha, Char.isUpper, Char.isLower, Bool.or_eq_true, Bool.and_eq_true,
    decide_eq_true_eq] at h
  have h2 : 65 ≤ c.val.toNat ∨ 97 ≤ c.val.toNat := by
    rcases h with ⟨h1, _⟩ | ⟨h1, _⟩
    · exact Or.inl (UInt32.le_toNat_of_le (by norm_num) h1)
    · exact Or.inr (UInt32.le_toNat_of_le (by norm_num) h1)
  simp only [Char.toNat]
  omega

/-- A scheme character is never the colon that terminates the scheme. -/
theorem schemeChar_not_colon (c : Char) (h : schemeChar c = true) :
    (c == ':') = false := by
  cases hb : c == ':'
  · rfl
  · exact absurd h (by rw [eq_of_beq hb]; decide)

/-- A scheme character survives the tab/CR/LF removal. -/
theorem schemeChar_keep (c : Char) (h : schemeChar c = true) :
    (c == '\t' || c == '\r' || c == '\n') = false := by
  cases h1 : c == '\t'
  · cases h2 : c == '\r'
    · cases h3 : c == '\n'
      · simp [h1, h2, h3]
      · exact absurd h (by rw [eq_of_beq h3]; decide)
    · exact absurd h (by rw [eq_of_beq h2]; decide)
  · exact absurd h (by rw [eq_of_beq h1]; decide)

/-! ## C1 — the orchestrator -/

/-- C1: `assume` is exactly the sequential composition
resolve origin → authenticate → retrieve SAML → assume role, and it is
fail-fast: whichever stage fails first, its error value reaches the caller
unchanged (no catching, retrying or transforming), and — because each
implication constrains the network only up to the failing stage — no later
stage's endpoint can influence the outcome. -/
theorem assume_sequential_composition_failfast (net : Net)
    (username password oktaForwardUrl : String) :
    (assume net username password oktaForwardUrl =
      (getOktaUrl oktaForwardUrl).bind fun oktaUrl =>
        (oktaAuth net username password oktaUrl).bind fun sessionToken =>
          (oktaGetSamlResponse net oktaUrl sessionToken oktaForwardUrl).bind fun samlb64enc =>
            awsAssumeRole net samlb64enc) ∧
    (∀ e, getOktaUrl oktaForwardUrl = .error e →
      assume net username password oktaForwardUrl = .error e) ∧
    (∀ u e, getOktaUrl oktaForwardUrl = .ok u →
      oktaAuth net username password u = .error e →
      assume net username password oktaForwardUrl = .error e) ∧
    (∀ u t e, getOktaUrl oktaForwardUrl = .ok u →
      oktaAuth net username password u = .ok t →
      oktaGetSamlResponse net u t oktaForwardUrl = .error e →
      assume net username password oktaForwardUrl = .error e) ∧
    (∀ u t s e, getOktaUrl oktaForwardUrl = .ok u →
      oktaAuth net username password u = .ok t →
      oktaGetSamlResponse net u t oktaForwardUrl = .ok s →
      awsAssumeRole net s = .error e →
      assume net username password oktaForwardUrl = .error e) := by
  have hmain : assume net username password oktaForwardUrl =
      (getOktaUrl oktaForwardUrl).bind fun oktaUrl =>
        (oktaAuth net username password oktaUrl).bind fun sessionToken =>
          (oktaGetSamlResponse net oktaUrl sessionToken oktaForwardUrl).bind fun samlb64enc =>
            awsAssumeRole net samlb64enc := rfl
  refine ⟨hmain, ?_, ?_, ?_, ?_⟩
  · intro e h
    rw [hmain, h]
    rfl
  · intro u e h1 h2
    rw [hmain, h1]
    simp only [Except.bind]
    rw [h2]
  · intro u t e h1 h2 h3
    rw [hmain, h1]
    simp only [Except.bind]
    rw [h2]
    simp only [Except.bind]
    rw [h3]
  · intro u t s e h1 h2 h3 h4
    rw [hmain, h1]
    simp only [Except.bind]
    rw [h2]
    simp only [Except.bind]
    rw [h3]
    simp only [Except.bind]
    rw [h4]

/-- Witness for C1: with a network whose authentication endpoint fails
with a connection error, the whole exchange surfaces exactly that error,
regardless of the (unconstrained) behaviour of the later endpoints. -/
theorem assume_sequential_composition_failfast_witness :
    assume authFailNet "user" "pw" "https://okta.example.com/home/amazon_aws/0oa123/272" =
      .error (.connectionError "connection refused") :=
  (assume_sequential_composition_failfast authFailNet "user" "pw"
      "https://okta.example.com/home/amazon_aws/0oa123/272").2.2.1
    "https://okta.example.com" (.connectionError "connection refused")
    (by decide) (by decide)

/-! ## C2 — scheme://host extraction -/

/-- C2: for every well-formed absolute URL `scheme://host` followed by an
optional path/query/fragment part, `getOktaUrl` returns exactly
`scheme://host`, discarding everything after the authority; in particular
it maps the specification's example forward-URL to
`"https://okta.example.com"`.  Well-formedness is spelled out structurally:
a nonempty lower-case letter-led scheme of scheme characters, a nonempty
authority free of `/?#`, control characters and unmatched brackets, and a
remainder that is empty or starts with `/`, `?` or `#`. -/
theorem getOktaUrl_scheme_host (scheme host rest : List Char)
    (hs1 : scheme ≠ [])
    (hs2 : (scheme.headD ' ').isAlpha = true)
    (hs3 : ∀ c ∈ scheme, schemeChar c = true)
    (hs4 : ∀ c ∈ scheme, c.toLower = c)
    (hh1 : ∀ c ∈ host, (c == '/' || c == '?' || c == '#') = false)
    (hh2 : ∀ c ∈ host, (c == '\t' || c == '\r' || c == '\n') = false)
    (hbr : host.contains '[' = host.contains ']')
    (hr : rest = [] ∨ (rest.headD ' ' == '/' || rest.headD ' ' == '?' ||
      rest.headD ' ' == '#') = true)
    (hrt : ∀ c ∈ rest, (c == '\t' || c == '\r' || c == '\n') = false) :
    getOktaUrl (String.mk (scheme ++ ':' :: '/' :: '/' :: (host ++ rest))) =
      .ok (String.mk (scheme ++ ':' :: '/' :: '/' :: host)) ∧
    getOktaUrl "https://okta.example.com/home/amazon_aws/0oa123/272" =
      .ok "https://okta.example.com" := by
  refine ⟨?_, by decide⟩
  obtain ⟨a, sch, rfl⟩ : ∃ a sch, scheme = a :: sch := by
    cases scheme with
    | nil => exact absurd rfl hs1
    | cons a sch => exact ⟨a, sch, rfl⟩
  have ha : a.isAlpha = true := by simpa using hs2
  have hstrip : wsStrip ((a :: sch) ++ ':' :: '/' :: '/' :: (host ++ rest)) =
      (a :: sch) ++ ':' :: '/' :: '/' :: (host ++ rest) := by
    unfold wsStrip
    rw [List.cons_append, List.dropWhile_cons]
    have hagt := alpha_gt32 a ha
    rw [if_neg (by simp only [decide_eq_true_eq]; omega)]
    rw [← List.cons_append]
    refine List.filter_eq_self.mpr ?_
    intro c hc
    rcases List.mem_append.mp hc with hc | hc
    · simp [schemeChar_keep c (hs3 c hc)]
    · simp only [List.mem_cons, List.mem_append] at hc
      rcases hc with rfl | rfl | rfl | hc | hc
      · decide
      · decide
      · decide
      · simp [hh2 c hc]
      · simp [hrt c hc]
  have hfind : List.findIdx? (fun c => c == ':')
      ((a :: sch) ++ ':' :: '/' :: '/' :: (host ++ rest)) 0 =
      some (a :: sch).length := by
    have := findIdxColon (fun c => c == ':') ('/' :: '/' :: (host ++ rest))
      (a :: sch) 0 (fun c hc => schemeChar_not_colon c (hs3 c hc)) (by decide)
    simpa using this
  have hc1 : ((a :: sch).length != 0) = true := by simp
  have hc2 : ((((a :: sch) ++ ':' :: '/' :: '/' :: (host ++ rest)).headD ' ').isAlpha) = true := by
    simpa using ha
  have htake : ((a :: sch) ++ ':' :: '/' :: '/' :: (host ++ rest)).take (a :: sch).length =
      a :: sch := List.take_left ..
  have hc3 : ((a :: sch).all schemeChar) = true :=
    List.all_eq_true.mpr fun c hc => hs3 c hc
  have hmap : List.map Char.toLower (a :: sch) = a :: sch := mapIdOn Char.toLower (a :: sch) hs4
  have hdrop : ((a :: sch) ++ ':' :: '/' :: '/' :: (host ++ rest)).drop ((a :: sch).length + 1) =
      '/' :: '/' :: (host ++ rest) := by
    rw [List.append_cons (a :: sch) ':' ('/' :: '/' :: (host ++ rest))]
    exact List.drop_left' (by simp)
  have hsplit : splitScheme ((a :: sch) ++ ':' :: '/' :: '/' :: (host ++ rest)) =
      ((a :: sch), '/' :: '/' :: (host ++ rest)) := by
    simp only [splitScheme, hfind, hc1, hc2, htake, hc3, hmap, hdrop]
    simp
  have htw : List.takeWhile (fun c => !(c == '/' || c == '?' || c == '#'))
      (host ++ rest) = host := by
    rw [List.takeWhile_append_of_pos (fun c hc => by simp [hh1 c hc])]
    rcases hr with rfl | hhead
    · simp
    · cases rest with
      | nil => simp
      | cons c rs =>
        have hcc : (c = '/' ∨ c = '?') ∨ c = '#' := by simpa using hhead
        rw [or_assoc] at hcc
        rcases hcc with rfl | rfl | rfl <;> simp [List.takeWhile_cons]
  have hbrcond : (host.contains '[' && !(host.contains ']') ||
      host.contains ']' && !(host.contains '[')) = false := by
    rw [hbr]
    cases host.contains ']' <;> rfl
  have hurl : urlsplitSN ((a :: sch) ++ ':' :: '/' :: '/' :: (host ++ rest)) =
      .ok ((a :: sch), host) := by
    simp only [urlsplitSN, hstrip, hsplit]
    have htake2 : (('/' :: '/' :: (host ++ rest)).take 2 == ['/', '/']) = true := rfl
    have hdrop2 : List.drop 2 ('/' :: '/' :: (host ++ rest)) = host ++ rest := rfl
    simp only [htake2, hdrop2, htw, hbrcond]
    simp
  have hurl2 : urlsplitSN (String.mk ((a :: sch) ++ ':' :: '/' :: '/' :: (host ++ rest))).data =
      .ok ((a :: sch), host) := hurl
  have hstr : String.mk (a :: sch) ++ "://" ++ String.mk host =
      String.mk ((a :: sch) ++ ':' :: '/' :: '/' :: host) := by
    have h1 : (String.mk (a :: sch) ++ "://" : String) =
        String.mk ((a :: sch) ++ [':', '/', '/']) := rfl
    rw [h1]
    have h2 : (String.mk ((a :: sch) ++ [':', '/', '/']) ++ String.mk host : String) =
        String.mk (((a :: sch) ++ [':', '/', '/']) ++ host) := rfl
    rw [h2, List.append_assoc]
    rfl
  simp only [getOktaUrl, hurl2]
  exact congrArg Except.ok hstr

/-- Witness for C2: a concrete well-formed URL with port, path, query and
fragment collapses to its origin. -/
theorem getOktaUrl_scheme_host_witness :
    getOktaUrl "http://example.org:8080/path?q=1#f" = .ok "http://example.org:8080" := by
  have h := (getOktaUrl_scheme_host "http".data "example.org:8080".data "/path?q=1#f".data
    (by decide) (by decide) (by decide) (by decide) (by decide) (by decide)
    (by decide) (by decide) (by decide)).1
  exact h

/-! ## C3 — no `InvalidUrl` failure exists -/

/-- Counterexample to C3: an input lacking both scheme and host does not
fail with any `InvalidUrl` error kind — `getOktaUrl` happily returns the
degenerate origin string `"://"`. -/
theorem getOktaUrl_no_scheme_cex :
    getOktaUrl "okta.example.com/home/amazon_aws/0oa123/272" = .ok "://" := by
  decide

/-- C3 (amended): for an input with no colon and no leading `//` (after
the WHATWG strip) — hence neither scheme nor authority — `getOktaUrl`
returns the degenerate origin `"://"` instead of failing; and no
`InvalidUrl` failure exists: over ASCII inputs (where the model covers
`urlparse` exactly — `_checknetloc` returns immediately for an ASCII
netloc, while a non-ASCII netloc can additionally raise its
NFKC-normalization `ValueError`, which is outside this scope), the only
error the function can produce is the IPv6-bracket `ValueError`. -/
theorem getOktaUrl_degenerate_origin (s : String)
    (h1 : ∀ c ∈ wsStrip s.data, (c == ':') = false)
    (h2 : ¬ (wsStrip s.data).take 2 = ['/', '/']) :
    getOktaUrl s = .ok "://" ∧
    ∀ t e, (∀ c ∈ t.data, c.toNat < 128) → getOktaUrl t = .error e →
      e = .valueError "Invalid IPv6 URL" := by
  constructor
  · have hf : List.findIdx? (fun c => c == ':') (wsStrip s.data) 0 = none :=
      findIdxNone _ _ 0 h1
    have h2b : ((wsStrip s.data).take 2 == ['/', '/']) = false := by
      simpa using h2
    simp only [getOktaUrl, urlsplitSN, splitScheme, hf, h2b, Bool.false_eq_true,
      if_false]
    decide
  · intro t e _hascii h
    unfold getOktaUrl at h
    split at h
    · next heq =>
      cases h
      exact urlsplitSN_error _ _ heq
    · cases h

/-- Witness for C3 (amended): a host-and-scheme-free path maps to the
degenerate `"://"`. -/
theorem getOktaUrl_degenerate_origin_witness :
    getOktaUrl "intranet/login page" = .ok "://" ∧
    ∀ t e, (∀ c ∈ t.data, c.toNat < 128) → getOktaUrl t = .error e →
      e = .valueError "Invalid IPv6 URL" :=
  getOktaUrl_degenerate_origin "intranet/login page" (by decide) (by decide)

/-! ## C10 — totality modulo the IPv6-bracket `ValueError` -/

/-- Counterexample to C10: `getOktaUrl` is not total — an authority with
an unmatched `[` makes `urlparse` raise `ValueError("Invalid IPv6 URL")`,
so the function does not return a string for every input. -/
theorem getOktaUrl_bracket_cex :
    getOktaUrl "//[" = .error (.valueError "Invalid IPv6 URL") := by decide

/-- C10 (amended): over ASCII inputs (where the model covers `urlparse`
exactly), `getOktaUrl` either returns a string or raises the single
IPv6-bracket `ValueError`; no other failure is possible. -/
theorem getOktaUrl_total_on_ascii (s : String)
    (_hascii : ∀ c ∈ s.data, c.toNat < 128) :
    (∃ r, getOktaUrl s = .ok r) ∨
      getOktaUrl s = .error (.valueError "Invalid IPv6 URL") := by
  unfold getOktaUrl
  cases hu : urlsplitSN s.data with
  | error e =>
    right
    rw [urlsplitSN_error _ _ hu]
  | ok sn =>
    left
    exact ⟨String.mk sn.1 ++ "://" ++ String.mk sn.2, rfl⟩

/-- Witness for C10 (amended): evaluated at a concrete ASCII input. -/
theorem getOktaUrl_total_on_ascii_witness :
    (∃ r, getOktaUrl "https://sts.amazonaws.com/x" = .ok r) ∨
      getOktaUrl "https://sts.amazonaws.com/x" =
        .error (.valueError "Invalid IPv6 URL") :=
  getOktaUrl_total_on_ascii "https://sts.amazonaws.com/x" (by decide)

/-! ## Shared bind-reduction lemmas for the `Except` pipeline -/

/-- A successful bind in the `Except` monad steps to its continuation. -/
theorem bindOk {α β : Type} (a : α) (f : α → Except PyError β) :
    (Except.ok a >>= f) = f a := rfl

/-- A failed bind in the `Except` monad short-circuits. -/
theorem bindErr {α β : Type} (e : PyError) (f : α → Except PyError β) :
    ((Except.error e : Except PyError α) >>= f) = Except.error e := rfl

/-! ## C4 — ARN extraction order -/

/-- C4: when the decoded assertion's attribute-value text splits on commas
into at least two segments, `awsAssumeRole` takes the first segment as the
principal ARN and the second as the role ARN, and sends exactly those two
values in the `RoleArn` and `PrincipalArn` query parameters of the STS
request (the rest of the computation being the response handling of that
one request). -/
theorem awsAssumeRole_arn_extraction (net : Net)
    (samlb64enc decoded arnStr : String) (d : PyVal)
    (p r : String) (restSegs : List String)
    (h1 : b64decode samlb64enc = .ok decoded)
    (h2 : xmltodictParse decoded = .ok d)
    (h3 : arnNav d = .ok (.pstr arnStr))
    (h4 : splitComma arnStr = p :: r :: restSegs) :
    awsAssumeRole net samlb64enc =
      (net.get ("https://sts.amazonaws.com/?Version=2011-06-15&Action=AssumeRoleWithSAML&RoleArn="
          ++ r ++ "&PrincipalArn=" ++ p ++ "&SAMLAssertion=" ++ quotePlus samlb64enc) >>=
        fun resp => xmltodictParse resp.body >>= fun awsDict => stsNav awsDict) := by
  simp only [awsAssumeRole, h1, bindOk, h2, h3, pyAsStr, h4, pyListGet, List.get?]

/-- Witness for C4: the synthetic two-ARN assertion drives a request whose
`RoleArn` is the second comma segment and whose `PrincipalArn` is the
first. -/
theorem awsAssumeRole_arn_extraction_witness :
    awsAssumeRole echoNet samlB64A =
      (echoNet.get ("https://sts.amazonaws.com/?Version=2011-06-15&Action=AssumeRoleWithSAML&RoleArn="
          ++ "arn:aws:iam::111111111111:role/ExampleRole" ++ "&PrincipalArn="
          ++ "arn:aws:iam::111111111111:saml-provider/Example" ++ "&SAMLAssertion="
          ++ quotePlus samlB64A) >>=
        fun resp => xmltodictParse resp.body >>= fun awsDict => stsNav awsDict) :=
  awsAssumeRole_arn_extraction echoNet samlB64A samlXmlA
    "arn:aws:iam::111111111111:saml-provider/Example,arn:aws:iam::111111111111:role/ExampleRole"
    samlDictA "arn:aws:iam::111111111111:saml-provider/Example"
    "arn:aws:iam::111111111111:role/ExampleRole" []
    (by decide) (by decide) (by decide) (by decide)

/-! ## C5 — fewer than two ARN segments -/

/-- Counterexample to C5: a comma-less attribute value makes
`awsAssumeRole` raise the generic `IndexError` of `split(",")[1]` — the
code has no `MalformedArnPair` error kind at all. -/
theorem awsAssumeRole_short_arn_cex :
    awsAssumeRole noSamlNet samlB64NoComma =
      .error (.indexError "list index out of range") := by
  decide

/-- C5 (amended): with fewer than two comma-separated segments in the
attribute-value text, `awsAssumeRole` fails by raising `IndexError`
(`list index out of range`) at the `split(",")[1]` subscript, before any
request to STS is made; no named `MalformedArnPair` failure exists. -/
theorem awsAssumeRole_short_arn_indexError (net : Net)
    (samlb64enc decoded arnStr : String) (d : PyVal)
    (h1 : b64decode samlb64enc = .ok decoded)
    (h2 : xmltodictParse decoded = .ok d)
    (h3 : arnNav d = .ok (.pstr arnStr))
    (h4 : (splitComma arnStr).length < 2) :
    awsAssumeRole net samlb64enc = .error (.indexError "list index out of range") := by
  have hget : (splitComma arnStr).get? 1 = none := by
    rw [List.get?_eq_none]
    omega
  simp only [awsAssumeRole, h1, bindOk, h2, h3, pyAsStr, pyListGet, hget, bindErr]

/-- Witness for C5 (amended): evaluated on the comma-less synthetic
assertion. -/
theorem awsAssumeRole_short_arn_indexError_witness :
    awsAssumeRole echoNet samlB64NoComma =
      .error (.indexError "list index out of range") :=
  awsAssumeRole_short_arn_indexError echoNet samlB64NoComma samlXmlNoComma
    "nocomma" samlDictNoComma (by decide) (by decide) (by decide) (by decide)

/-! ## C6 — SAML value extraction and percent-decoding -/

/-- C6: whenever the response body contains an input element with
`name="SAMLResponse"` (as located by the embedded `find`) carrying a
`value` attribute, `oktaGetSamlResponse` returns the percent-decoded value;
and the specification's example value `PHNhbWxwOlJlc3BvbnNlPg%3D%3D`
decodes to `PHNhbWxwOlJlc3BvbnNlPg==`.  The `asciiEscapes` hypothesis
marks the region where the character-level decoder coincides with
Python's byte-level `unquote`. -/
theorem oktaGetSamlResponse_extracts_value (net : Net)
    (oktaUrl tok oktaForwardUrl body v : String) (st : Nat)
    (attrs : List (String × Option String))
    (hnet : net.get (oktaUrl ++ "/login/sessionCookieRedirect?checkAccountSetupComplete=true&token="
      ++ tok ++ "&redirectUrl=" ++ oktaForwardUrl) = .ok ⟨st, body⟩)
    (hfind : findSamlInput (body.length + 1) body.data = some attrs)
    (hval : List.lookup "value" attrs = some (some v))
    (_hasc : asciiEscapes v.data = true) :
    oktaGetSamlResponse net oktaUrl (.pstr tok) oktaForwardUrl = .ok (unquote v) ∧
    unquote "PHNhbWxwOlJlc3BvbnNlPg%3D%3D" = "PHNhbWxwOlJlc3BvbnNlPg==" := by
  refine ⟨?_, by decide⟩
  simp only [oktaGetSamlResponse, hnet, hfind, hval]

/-- Witness for C6: the specification's example page yields the decoded
base64 assertion. -/
theorem oktaGetSamlResponse_extracts_value_witness :
    oktaGetSamlResponse samlPageNet "https://okta.example.com" (.pstr "tok")
      "https://okta.example.com/home/amazon_aws/0oa123/272" =
      .ok "PHNhbWxwOlJlc3BvbnNlPg==" := by
  have h := (oktaGetSamlResponse_extracts_value samlPageNet "https://okta.example.com"
    "tok" "https://okta.example.com/home/amazon_aws/0oa123/272" samlHtmlA
    "PHNhbWxwOlJlc3BvbnNlPg%3D%3D" 200
    [("name", some "SAMLResponse"), ("value", some "PHNhbWxwOlJlc3BvbnNlPg%3D%3D")]
    (by decide) (by decide) (by decide) (by decide)).1
  rw [h]
  decide

/-! ## C7 — missing SAML element -/

/-- Counterexample to C7: when no `SAMLResponse` input exists the code does
not fail with a `SamlElementNotFound` kind — `bs.find` returns `None` and
`None['value']` raises the generic `TypeError`, exactly the kind of
exception the claim says never escapes. -/
theorem oktaGetSamlResponse_missing_cex :
    oktaGetSamlResponse noSamlNet "https://okta.example.com" (.pstr "tok")
      "https://okta.example.com/home/amazon_aws/0oa123/272" =
      .error (.typeError "'NoneType' object is not subscriptable") := by
  decide

/-- C7 (amended): whenever no input element named `SAMLResponse` is found
— including in malformed HTML, which the lenient parser never raises on —
`oktaGetSamlResponse` fails by raising `TypeError` (`'NoneType' object is
not subscriptable`) from subscripting the `None` that `find` returned. -/
theorem oktaGetSamlResponse_missing_typeError (net : Net)
    (oktaUrl tok oktaForwardUrl body : String) (st : Nat)
    (hnet : net.get (oktaUrl ++ "/login/sessionCookieRedirect?checkAccountSetupComplete=true&token="
      ++ tok ++ "&redirectUrl=" ++ oktaForwardUrl) = .ok ⟨st, body⟩)
    (hfind : findSamlInput (body.length + 1) body.data = none) :
    oktaGetSamlResponse net oktaUrl (.pstr tok) oktaForwardUrl =
      .error (.typeError "'NoneType' object is not subscriptable") := by
  simp only [oktaGetSamlResponse, hnet, hfind]

/-- Witness for C7 (amended): a malformed tag-soup body produces the same
`TypeError`, with the parser itself never raising. -/
theorem oktaGetSamlResponse_missing_typeError_witness :
    oktaGetSamlResponse malformedHtmlNet "https://okta.example.com" (.pstr "tok")
      "https://okta.example.com/home/amazon_aws/0oa123/272" =
      .error (.typeError "'NoneType' object is not subscriptable") :=
  oktaGetSamlResponse_missing_typeError malformedHtmlNet "https://okta.example.com"
    "tok" "https://okta.example.com/home/amazon_aws/0oa123/272"
    "<<<p><input name=>>>oops<b" 200 (by decide) (by decide)

/-! ## C8 — authentication result and the ignored status code -/

/-- Counterexample to C8: a 401 response — rejected credentials — whose
body still carries a `sessionToken` does NOT fail with
`AuthenticationFailed`: the code never inspects the HTTP status and
returns the token. -/
theorem oktaAuth_ignores_status_cex :
    oktaAuth status401Net "user" "pw" "https://okta.example.com" =
      .ok (.pstr "abc123") := by
  decide

/-- C8 (amended): `oktaAuth` never examines the HTTP status code; whenever
the body parses as JSON, the result is exactly the `sessionToken`
subscript of the parsed value — the token itself when the field is
present, a `KeyError` when an object lacks it — and a non-JSON body raises
`json.JSONDecodeError`; no `AuthenticationFailed` kind exists. -/
theorem oktaAuth_status_ignored (net : Net)
    (username password oktaUrl body : String) (st : Nat) (j : PyVal)
    (hnet : net.post (oktaUrl ++ "/api/v1/authn")
      [("Content-Type", "application/json; charset=utf-8")]
      (jsonDumpsPairs [("username", username), ("password", password)]) = .ok ⟨st, body⟩)
    (hjson : pyJsonLoads body = .ok j) :
    oktaAuth net username password oktaUrl = pyGetS j "sessionToken" := by
  simp only [oktaAuth, hnet, hjson]

/-- Witness for C8 (amended): a 200 response with
`{"sessionToken": "abc123"}` yields the token. -/
theorem oktaAuth_status_ignored_witness :
    oktaAuth echoNet "user" "pw" "https://okta.example.com" = .ok (.pstr "abc123") := by
  have h := oktaAuth_status_ignored echoNet "user" "pw" "https://okta.example.com"
    "\x7b\"sessionToken\": \"abc123\"\x7d" 200 (.pdict [("sessionToken", .pstr "abc123")])
    (by decide) (by decide)
  rw [h]
  decide

/-! ## C9 — round-trip pass-through -/

/-- C9: against an STS endpoint that answers the (fully determined)
assumption request with a document carrying a `Credentials` node,
`awsAssumeRole` returns exactly that node's parsed value, unchanged; the
request URL carries the original still-base64-encoded assertion
percent-encoded in the `SAMLAssertion` query parameter. -/
theorem awsAssumeRole_roundtrip (net : Net)
    (samlb64enc decoded arnStr stsBody : String) (d d2 creds : PyVal)
    (p r : String) (restSegs : List String) (st : Nat)
    (h1 : b64decode samlb64enc = .ok decoded)
    (h2 : xmltodictParse decoded = .ok d)
    (h3 : arnNav d = .ok (.pstr arnStr))
    (h4 : splitComma arnStr = p :: r :: restSegs)
    (h5 : net.get ("https://sts.amazonaws.com/?Version=2011-06-15&Action=AssumeRoleWithSAML&RoleArn="
      ++ r ++ "&PrincipalArn=" ++ p ++ "&SAMLAssertion=" ++ quotePlus samlb64enc) = .ok ⟨st, stsBody⟩)
    (h6 : xmltodictParse stsBody = .ok d2)
    (h7 : stsNav d2 = .ok creds) :
    awsAssumeRole net samlb64enc = .ok creds := by
  simp only [awsAssumeRole, h1, bindOk, h2, h3, pyAsStr, h4, pyListGet, List.get?,
    h5, h6, h7]

/-- Witness for C9: the synthetic base64 assertion against the echoing STS
endpoint yields the fixed credentials unchanged. -/
theorem awsAssumeRole_roundtrip_witness :
    awsAssumeRole echoNet samlB64A = .ok credsA :=
  awsAssumeRole_roundtrip echoNet samlB64A samlXmlA
    "arn:aws:iam::111111111111:saml-provider/Example,arn:aws:iam::111111111111:role/ExampleRole"
    stsXmlA samlDictA stsDictA credsA
    "arn:aws:iam::111111111111:saml-provider/Example"
    "arn:aws:iam::111111111111:role/ExampleRole" [] 200
    (by decide) (by decide) (by decide) (by decide) (by decide) (by decide) (by decide)

end Okta2Aws
